import Mathlib

/-!
Shallow embedding of the blog application in `main.py`: the SQLAlchemy data
model (tables `users`, `blog_posts`, `comments`), the session identity managed
by Flask-Login, and the route handlers `register`, `login`, `logout`,
`show_post`, `add_new_post`, `edit_post`, `delete_post`, `get_all_users`,
together with the `admin_only` authorization gate.  The database is a triple of
lists; the session is the optional id of the authenticated user (`none` models
the anonymous caller).  Form validation (`validate_on_submit`) is modelled by
entering the success branch with the submitted field values as arguments.
-/

namespace MyBlog

/-- Row of the `users` table in `main.py` (id, email, hashed password, name). -/
structure User where
  id : Nat
  email : String
  password : String
  name : String
deriving DecidableEq

/-- Row of the `blog_posts` table in `main.py`. -/
structure BlogPost where
  id : Nat
  author_id : Nat
  title : String
  subtitle : String
  date : String
  body : String
  img_url : String
deriving DecidableEq

/-- Caller identity resolved by Flask-Login: `none` is the anonymous caller,
`some uid` an authenticated user with id `uid`. -/
abbrev Identity := Option Nat

/-- Row of the `comments` table in `main.py`.  The `author` field records the
`current_user` object assigned to `comment_author` at creation, which is the
caller identity (possibly anonymous). -/
structure Comment where
  id : Nat
  text : String
  author : Identity
  post_id : Nat
deriving DecidableEq

/-- The relational store: the three tables created by `db.create_all()`. -/
structure DB where
  users : List User
  posts : List BlogPost
  comments : List Comment
deriving DecidableEq

/-- Autoincrement of an integer primary key: one more than the largest id
already present. -/
def maxId (ids : List Nat) : Nat := ids.foldl max 0

def nextUserId (users : List User) : Nat := maxId (users.map User.id) + 1

def nextPostId (posts : List BlogPost) : Nat := maxId (posts.map BlogPost.id) + 1

def nextCommentId (comments : List Comment) : Nat := maxId (comments.map Comment.id) + 1

/-- Modelled from the spec: werkzeug's password hashing utility (an external
collaborator, spec section 4.1): the plaintext is salted and one-way hashed
before storage. -/
def generate_password_hash (p : String) : String := "pbkdf2:sha256$" ++ p

/-- Modelled from the spec: werkzeug's hash check (spec section 4.1): the
submitted plaintext is re-hashed and compared to the stored hash. -/
def check_password_hash (stored submitted : String) : Bool :=
  stored == generate_password_hash submitted

/-- Responses a handler can produce: a rendered page, a redirect, an HTTP 403
from `abort(403)`, an HTTP 404 from `get_or_404`, or the JSON payload of
`/all-users`. -/
inductive Response where
  | page (nm : String)
  | redirectTo (target : String)
  | forbidden
  | httpNotFound
  | jsonUsers (entries : List (String × Nat × String × String))
deriving DecidableEq

/-- Result of the `admin_only` decorator stack: `denyLogin` is Flask-Login's
rejection of an unauthenticated caller by `@login_required`; `forbidden` is
`abort(403)`; `allow uid` lets the wrapped handler run as user `uid`. -/
inductive GateResult where
  | allow (uid : Nat)
  | denyLogin
  | forbidden
deriving DecidableEq

/-- The condition guarding `abort(403)` in `admin_only` (main.py line 141):
`not current_user.is_authenticated and current_user.id != 1`. -/
def admin_check (is_auth : Bool) (uid : Nat) : Bool :=
  (!is_auth) && (uid != 1)

/-- The `admin_only` decorator (main.py lines 137-144): `@login_required`
rejects the anonymous caller; otherwise the wrapped function observes
`current_user.is_authenticated = true`, and `abort(403)` fires only when
`admin_check true uid` holds. -/
def admin_only (s : Identity) : GateResult :=
  match s with
  | none => GateResult.denyLogin
  | some uid =>
      if admin_check true uid then GateResult.forbidden else GateResult.allow uid

/-- Lookup of a post by primary key, as `db.get_or_404(BlogPost, post_id)`. -/
def getPost (db : DB) (pid : Nat) : Option BlogPost :=
  db.posts.find? (fun p => p.id == pid)

/-- Lookup of a user by primary key, as `load_user` (main.py lines 96-98). -/
def load_user (db : DB) (uid : Nat) : Option User :=
  db.users.find? (fun u => u.id == uid)

/-- The comments visible on a post when it is re-fetched: the
`BlogPost.comments` relationship selects the comments whose `post_id` is the
post's id. -/
def getComments (db : DB) (pid : Nat) : List Comment :=
  db.comments.filter (fun c => c.post_id == pid)

/-- Outcome of `register` (main.py lines 149-189): `duplicateEmail` is the
flash message plus redirect to the login page; `success uid` is the redirect
to the post list after `login_user(new_user)`. -/
inductive RegisterResult where
  | duplicateEmail
  | success (uid : Nat)
deriving DecidableEq

/-- The `register` handler (main.py lines 149-189) on a validated form: a
pre-check selects any user with the submitted email; on a hit it flashes and
redirects to login without writing; otherwise it inserts the new user with the
hashed password and calls `login_user(new_user)`, so the session identity
becomes the new user's id. -/
def register (db : DB) (s : Identity) (email pwd nm : String) :
    DB × Identity × RegisterResult :=
  match db.users.find? (fun u => u.email == email) with
  | some _ => (db, s, RegisterResult.duplicateEmail)
  | none =>
      let uid := nextUserId db.users
      let nu : User :=
        { id := uid, email := email, password := generate_password_hash pwd, name := nm }
      ({ db with users := db.users ++ [nu] }, some uid, RegisterResult.success uid)

/-- Outcome of `login` (main.py lines 193-227), in the order the code checks:
unknown email, wrong password, already authenticated, success. -/
inductive LoginResult where
  | emailNotFound
  | wrongPassword
  | alreadyLoggedIn
  | success (uid : Nat)
deriving DecidableEq

/-- The `login` handler (main.py lines 193-227) on a validated form: looks up
the user by email, then checks the password hash, then whether the caller is
already authenticated; only the final branch calls `login_user(user)`. -/
def login (db : DB) (s : Identity) (email pwd : String) : Identity × LoginResult :=
  match db.users.find? (fun u => u.email == email) with
  | none => (s, LoginResult.emailNotFound)
  | some u =>
      if !check_password_hash u.password pwd then (s, LoginResult.wrongPassword)
      else if s.isSome then (s, LoginResult.alreadyLoggedIn)
      else (some u.id, LoginResult.success u.id)

/-- The `logout` handler (main.py lines 230-235): when authenticated it calls
`logout_user()` and returns a redirect; when not authenticated the function
body falls through and returns no response at all (Python `None`), modelled as
`Option.none` in the second component. -/
def logout (s : Identity) : Identity × Option Response :=
  if s.isSome then ((none : Identity), some (Response.redirectTo "get_all_posts"))
  else (s, (none : Option Response))

/-- Full month names as produced by the `%B` directive of `strftime` for the
months 1 to 12. -/
def monthName : Nat → String
  | 1 => "January"
  | 2 => "February"
  | 3 => "March"
  | 4 => "April"
  | 5 => "May"
  | 6 => "June"
  | 7 => "July"
  | 8 => "August"
  | 9 => "September"
  | 10 => "October"
  | 11 => "November"
  | 12 => "December"
  | _ => ""

/-- The `%d` directive of `strftime`: the day of the month zero-padded to two
digits. -/
def pad2 (n : Nat) : String :=
  if n < 10 then "0" ++ Nat.repr n else Nat.repr n

/-- The current calendar date as a year, month, day triple
(`datetime.date.today()`). -/
structure Date where
  year : Nat
  month : Nat
  day : Nat
deriving DecidableEq

/-- The format string `"%B %d, %Y"` applied by `add_new_post` (main.py line
279): full month name, space, two-digit day, comma, space, year. -/
def strftime_BdY (d : Date) : String :=
  monthName d.month ++ " " ++ pad2 d.day ++ ", " ++ Nat.repr d.year

/-- Core of `add_new_post` (main.py lines 270-284) on a validated form, after
the gate: inserts a new post authored by the caller with the current date
stamped via `strftime("%B %d, %Y")`. -/
def add_new_post (db : DB) (caller : Nat) (today : Date) (t st bo im : String) : DB :=
  let p : BlogPost :=
    { id := nextPostId db.posts, author_id := caller, title := t, subtitle := st,
      date := strftime_BdY today, body := bo, img_url := im }
  { db with posts := db.posts ++ [p] }

/-- The field updates performed by `edit_post` (main.py lines 300-305): title,
subtitle, img_url, body take the submitted values and the author becomes the
current caller; id and date are not touched. -/
def updatePost (caller : Nat) (t st bo im : String) (p : BlogPost) : BlogPost :=
  { p with title := t, subtitle := st, img_url := im, author_id := caller, body := bo }

/-- Core of `edit_post` (main.py lines 291-308) on a validated form, after the
gate: mutates the post fetched by primary key in place; all other rows are
untouched. -/
def edit_post (db : DB) (caller pid : Nat) (t st bo im : String) : DB :=
  { db with posts :=
      db.posts.map (fun p => if p.id == pid then updatePost caller t st bo im p else p) }

/-- Core of `delete_post` (main.py lines 315-319), after the gate: removes the
post fetched by primary key; comment rows are not touched (no cascade is
configured). -/
def delete_post (db : DB) (pid : Nat) : DB :=
  { db with posts := db.posts.filter (fun p => !(p.id == pid)) }

/-- The `/new-post` route: `admin_only` gate, then `add_new_post`, which
redirects to the post list on success. -/
def new_post_route (db : DB) (s : Identity) (today : Date) (t st bo im : String) :
    DB × Response :=
  match admin_only s with
  | GateResult.denyLogin => (db, Response.redirectTo "login")
  | GateResult.forbidden => (db, Response.forbidden)
  | GateResult.allow uid =>
      (add_new_post db uid today t st bo im, Response.redirectTo "get_all_posts")

/-- The `/edit-post/<post_id>` route: `admin_only` gate, `get_or_404`, then
`edit_post`, which redirects to the post page on success. -/
def edit_post_route (db : DB) (s : Identity) (pid : Nat) (t st bo im : String) :
    DB × Response :=
  match admin_only s with
  | GateResult.denyLogin => (db, Response.redirectTo "login")
  | GateResult.forbidden => (db, Response.forbidden)
  | GateResult.allow uid =>
      match getPost db pid with
      | none => (db, Response.httpNotFound)
      | some p =>
          (edit_post db uid pid t st bo im,
           Response.redirectTo ("show_post " ++ Nat.repr p.id))

/-- The `/delete/<post_id>` route: `admin_only` gate, `get_or_404`, then
`delete_post`, which redirects to the post list. -/
def delete_post_route (db : DB) (s : Identity) (pid : Nat) : DB × Response :=
  match admin_only s with
  | GateResult.denyLogin => (db, Response.redirectTo "login")
  | GateResult.forbidden => (db, Response.forbidden)
  | GateResult.allow _ =>
      match getPost db pid with
      | none => (db, Response.httpNotFound)
      | some _ => (delete_post db pid, Response.redirectTo "get_all_posts")

/-- The `/post/<post_id>` route (main.py lines 246-263): `get_or_404`, then,
when the comment form validates, a new `Comment` is created whose
`comment_author` is `current_user` (the caller identity, authenticated or
not) and whose `parent_post` is the requested post; no authentication check
guards this path.  `form_valid` models `comment_form.validate_on_submit()`. -/
def show_post (db : DB) (s : Identity) (pid : Nat) (form_valid : Bool) (text : String) :
    DB × Response :=
  match getPost db pid with
  | none => (db, Response.httpNotFound)
  | some p =>
      if form_valid then
        let c : Comment :=
          { id := nextCommentId db.comments, text := text, author := s, post_id := p.id }
        ({ db with comments := db.comments ++ [c] }, Response.page "post")
      else (db, Response.page "post")

/-- Python dict assignment `d[k] = v` on an association list: replaces the
value at an existing key in place, otherwise appends the binding. -/
def dictInsert (k : String) (v : Nat × String × String) :
    List (String × Nat × String × String) → List (String × Nat × String × String)
  | [] => [(k, v)]
  | (k2, v2) :: rest =>
      if k2 == k then (k, v) :: rest else (k2, v2) :: dictInsert k v rest

/-- The dictionary built by `get_all_users` (main.py lines 120-133): for each
user in the store, in order, the binding `user.name` to `(id, name, email)` is
written into a Python dict. -/
def get_all_users (users : List User) : List (String × Nat × String × String) :=
  users.foldl (fun m u => dictInsert u.name (u.id, u.name, u.email) m) []

/-- The `/all-users` route: no decorator guards it; the response is the JSON
dictionary regardless of the caller identity. -/
def get_all_users_route (db : DB) (_s : Identity) : DB × Response :=
  (db, Response.jsonUsers (get_all_users db.users))

/-- Concrete store with the bootstrap admin (id 1), a second user (id 2) and
one post, used to evaluate the admin gate. -/
def dbC1 : DB :=
  { users :=
      [{ id := 1, email := "admin@x.com", password := "h1", name := "Admin" },
       { id := 2, email := "b@x.com", password := "h2", name := "Bob" }],
    posts :=
      [{ id := 1, author_id := 1, title := "P1", subtitle := "s",
         date := "March 03, 2024", body := "b", img_url := "i" }],
    comments := [] }

/-- Concrete store with a single registered user, used to evaluate login. -/
def dbC3 : DB :=
  { users :=
      [{ id := 1, email := "a@x.com", password := generate_password_hash "pw1", name := "A" }],
    posts := [], comments := [] }

/-- Empty store, used to evaluate registration. -/
def emptyDB : DB := { users := [], posts := [], comments := [] }

/-- Concrete store with one post, used to evaluate editing. -/
def dbC6 : DB :=
  { users := [{ id := 1, email := "a@x.com", password := "h", name := "A" }],
    posts :=
      [{ id := 1, author_id := 1, title := "P1", subtitle := "s",
         date := "March 03, 2024", body := "b", img_url := "i" }],
    comments := [] }

/-- Concrete store with one post, used to evaluate commenting. -/
def dbC7 : DB :=
  { users :=
      [{ id := 1, email := "a@x.com", password := "h", name := "A" },
       { id := 2, email := "b@x.com", password := "h2", name := "B" }],
    posts :=
      [{ id := 1, author_id := 1, title := "P1", subtitle := "s",
         date := "March 03, 2024", body := "b", img_url := "i" }],
    comments := [] }

/-- Concrete store with one post, used to evaluate anonymous commenting. -/
def dbC10 : DB :=
  { users := [{ id := 1, email := "a@x.com", password := "h", name := "A" }],
    posts :=
      [{ id := 3, author_id := 1, title := "P3", subtitle := "s",
         date := "March 03, 2024", body := "b", img_url := "i" }],
    comments := [] }

/-- Concrete store used to evaluate post creation. -/
def dbC5 : DB :=
  { users := [{ id := 1, email := "a@x.com", password := "h", name := "A" }],
    posts := [], comments := [] }

/-- Concrete calendar date used to evaluate the date stamp. -/
def dateC5 : Date := { year := 2024, month := 3, day := 3 }

/-- Two users sharing the display name but with different emails and ids. -/
def usersC8 : List User :=
  [{ id := 1, email := "a@x.com", password := "h1", name := "A" },
   { id := 2, email := "b@x.com", password := "h2", name := "A" }]

/-- Concrete store with two users with distinct names, used to evaluate
the `/all-users` dictionary. -/
def dbC8 : DB :=
  { users :=
      [{ id := 1, email := "a@x.com", password := "h1", name := "A" },
       { id := 2, email := "b@x.com", password := "h2", name := "B" }],
    posts := [], comments := [] }

/- ------------------------------------------------------------------ -/
/- Theorems                                                           -/
/- ------------------------------------------------------------------ -/

/-- Claim C1: the spec requires that a non-admin authenticated caller invoking
new-post, edit-post or delete is denied with Forbidden (403) while the admin
succeeds.  The code violates the first half: the condition guarding
`abort(403)` is `not current_user.is_authenticated and current_user.id != 1`,
which is false for every caller admitted by `@login_required`, so the
authenticated non-admin (id 2) passes the gate and all three operations
succeed (the delete really removes the post); the admin part does hold. -/
theorem admin_gate_C1 :
    admin_only (some 2) = GateResult.allow 2 ∧
    (new_post_route dbC1 (some 2) { year := 2024, month := 3, day := 4 } "T2" "s" "b" "i").snd
      = Response.redirectTo "get_all_posts" ∧
    (edit_post_route dbC1 (some 2) 1 "T3" "s" "b" "i").snd ≠ Response.forbidden ∧
    (delete_post_route dbC1 (some 2) 1).snd ≠ Response.forbidden ∧
    (delete_post_route dbC1 (some 2) 1).fst.posts = [] ∧
    (new_post_route dbC1 (some 1) { year := 2024, month := 3, day := 4 } "T4" "s" "b" "i").snd
      = Response.redirectTo "get_all_posts" := by
  decide

/-- Claim C4: invoking logout while unauthenticated leaves the state (the
anonymous identity) unchanged, but the handler body falls through without
returning anything, so no HTTP response is produced (Flask turns the Python
`None` into an internal error rather than a normal response). -/
theorem logout_unauthenticated_C4 :
    logout none = ((none : Identity), (none : Option Response)) := by
  decide

/-- Claim C3: for a registered user found by email whose stored hash does not
match the submitted password, login fails with the WrongPassword outcome and
the anonymous caller stays anonymous (no session is established). -/
theorem login_wrong_password_C3 (db : DB) (email pwd : String) (u : User)
    (hfind : db.users.find? (fun x => x.email == email) = some u)
    (hpwd : check_password_hash u.password pwd = false) :
    login db none email pwd = ((none : Identity), LoginResult.wrongPassword) := by
  simp [login, hfind, hpwd]

/-- Witness for claim C3 at a concrete store and password. -/
theorem login_wrong_password_C3_witness :
    (dbC3.users.find? (fun x => x.email == "a@x.com") =
        some { id := 1, email := "a@x.com", password := generate_password_hash "pw1",
               name := "A" } ∧
      check_password_hash (generate_password_hash "pw1") "pw2" = false) ∧
    login dbC3 none "a@x.com" "pw2" = ((none : Identity), LoginResult.wrongPassword) :=
  ⟨⟨by decide, by decide⟩,
   login_wrong_password_C3 dbC3 "a@x.com" "pw2"
     { id := 1, email := "a@x.com", password := generate_password_hash "pw1", name := "A" }
     (by decide) (by decide)⟩

/-- Claim C10: the comment path of show_post performs no authentication check:
an anonymous caller submitting a valid comment form reaches comment creation,
and the stored comment's author is the anonymous identity. -/
theorem anonymous_comment_C10 (db : DB) (pid : Nat) (text : String) (p : BlogPost)
    (hp : getPost db pid = some p) :
    show_post db none pid true text =
      ({ db with comments := db.comments ++
          [{ id := nextCommentId db.comments, text := text, author := none,
             post_id := p.id }] },
       Response.page "post") := by
  simp [show_post, hp]

/-- Witness for claim C10 at a concrete store and post. -/
theorem anonymous_comment_C10_witness :
    getPost dbC10 3 = some { id := 3, author_id := 1, title := "P3", subtitle := "s",
                             date := "March 03, 2024", body := "b", img_url := "i" } ∧
    show_post dbC10 none 3 true "hello" =
      ({ dbC10 with comments := dbC10.comments ++
          [{ id := nextCommentId dbC10.comments, text := "hello", author := none,
             post_id := 3 }] },
       Response.page "post") :=
  ⟨by decide,
   anonymous_comment_C10 dbC10 3 "hello"
     { id := 3, author_id := 1, title := "P3", subtitle := "s",
       date := "March 03, 2024", body := "b", img_url := "i" }
     (by decide)⟩

/-- Claim C7: an authenticated caller commenting on an existing post creates a
comment whose author is the caller and whose parent is that post, and the
comment is among the post's comments when the post is re-fetched. -/
theorem add_comment_C7 (db : DB) (uid pid : Nat) (text : String) (p : BlogPost)
    (hp : getPost db pid = some p) :
    ({ id := nextCommentId db.comments, text := text, author := some uid,
       post_id := p.id } : Comment) ∈
        getComments (show_post db (some uid) pid true text).fst p.id ∧
    (show_post db (some uid) pid true text).fst.comments =
      db.comments ++
        [{ id := nextCommentId db.comments, text := text, author := some uid,
           post_id := p.id }] := by
  constructor
  · simp [show_post, hp, getComments, List.mem_filter]
  · simp [show_post, hp]

/-- Witness for claim C7 at a concrete store, caller and post. -/
theorem add_comment_C7_witness :
    getPost dbC7 1 = some { id := 1, author_id := 1, title := "P1", subtitle := "s",
                            date := "March 03, 2024", body := "b", img_url := "i" } ∧
    (({ id := nextCommentId dbC7.comments, text := "nice", author := some 2,
        post_id := 1 } : Comment) ∈
        getComments (show_post dbC7 (some 2) 1 true "nice").fst 1 ∧
      (show_post dbC7 (some 2) 1 true "nice").fst.comments =
        dbC7.comments ++
          [{ id := nextCommentId dbC7.comments, text := "nice", author := some 2,
             post_id := 1 }]) :=
  ⟨by decide,
   add_comment_C7 dbC7 2 1 "nice"
     { id := 1, author_id := 1, title := "P1", subtitle := "s",
       date := "March 03, 2024", body := "b", img_url := "i" }
     (by decide)⟩

/-- The accumulator of a running maximum never decreases. -/
theorem foldl_max_init_le (l : List Nat) (a : Nat) : a ≤ l.foldl max a := by
  induction l generalizing a with
  | nil => exact Nat.le_refl a
  | cons x xs ih => exact Nat.le_trans (Nat.le_max_left a x) (ih (max a x))

/-- Every element of a list is bounded by the folded maximum. -/
theorem le_foldl_max (l : List Nat) (a : Nat) (ha : a ∈ l) :
    ∀ acc, a ≤ l.foldl max acc := by
  induction l with
  | nil => cases ha
  | cons x xs ih =>
    intro acc
    rcases List.mem_cons.mp ha with h | h
    · subst h
      exact Nat.le_trans (Nat.le_max_right acc a) (foldl_max_init_le xs (max acc a))
    · exact ih h (max acc x)

/-- The autoincremented user id is strictly larger than every existing id. -/
theorem id_lt_nextUserId (users : List User) (u : User) (hu : u ∈ users) :
    u.id < nextUserId users :=
  Nat.lt_succ_of_le (le_foldl_max (users.map User.id) u.id (List.mem_map_of_mem User.id hu) 0)

/-- No existing user carries the autoincremented id. -/
theorem find?_nextUserId_eq_none (users : List User) :
    users.find? (fun u => u.id == nextUserId users) = none := by
  apply List.find?_eq_none.mpr
  intro x hx
  have h := id_lt_nextUserId users x hx
  simp only [beq_iff_eq]
  omega

/-- Claim C2: once an email is registered, a second registration attempt with
the same email fails with the DuplicateEmail outcome (flash plus redirect to
login), the store is exactly the one left by the first registration (so no
write occurs), and the rows for that email in the store are exactly the one
created by the first registration. -/
theorem register_duplicate_C2 (db : DB) (s s1 : Identity) (email p1 n1 p2 n2 : String)
    (hfresh : db.users.find? (fun u => u.email == email) = none) :
    (register (register db s email p1 n1).fst s1 email p2 n2).snd.snd
      = RegisterResult.duplicateEmail ∧
    (register (register db s email p1 n1).fst s1 email p2 n2).fst
      = (register db s email p1 n1).fst ∧
    (register db s email p1 n1).fst.users.filter (fun u => u.email == email) =
      [{ id := nextUserId db.users, email := email,
         password := generate_password_hash p1, name := n1 }] := by
  have hnil : db.users.filter (fun u => u.email == email) = [] :=
    List.filter_eq_nil_iff.mpr (List.find?_eq_none.mp hfresh)
  refine ⟨?_, ?_, ?_⟩ <;>
    simp [register, hfresh, List.find?_append, List.filter_append, hnil]

/-- Witness for claim C2 starting from the empty store. -/
theorem register_duplicate_C2_witness :
    emptyDB.users.find? (fun u => u.email == "a@x.com") = none ∧
    ((register (register emptyDB none "a@x.com" "pw1" "A").fst none "a@x.com" "pw2" "B").snd.snd
        = RegisterResult.duplicateEmail ∧
      (register (register emptyDB none "a@x.com" "pw1" "A").fst none "a@x.com" "pw2" "B").fst
        = (register emptyDB none "a@x.com" "pw1" "A").fst ∧
      (register emptyDB none "a@x.com" "pw1" "A").fst.users.filter
          (fun u => u.email == "a@x.com") =
        [{ id := nextUserId emptyDB.users, email := "a@x.com",
           password := generate_password_hash "pw1", name := "A" }]) :=
  ⟨by decide, register_duplicate_C2 emptyDB none none "a@x.com" "pw1" "A" "pw2" "B" (by decide)⟩

/-- Claim C9: a successful registration (fresh email) establishes a session
for the new user before redirecting: the resulting identity is the new user's
id (in particular not Anonymous), that id resolves via `load_user` to the
freshly inserted row, and the outcome is the success redirect. -/
theorem register_session_C9 (db : DB) (s : Identity) (email pwd nm : String)
    (hfresh : db.users.find? (fun u => u.email == email) = none) :
    (register db s email pwd nm).snd.fst = some (nextUserId db.users) ∧
    (register db s email pwd nm).snd.fst ≠ (none : Identity) ∧
    load_user (register db s email pwd nm).fst (nextUserId db.users) =
      some { id := nextUserId db.users, email := email,
             password := generate_password_hash pwd, name := nm } ∧
    (register db s email pwd nm).snd.snd = RegisterResult.success (nextUserId db.users) := by
  refine ⟨?_, ?_, ?_, ?_⟩ <;>
    simp [register, hfresh, load_user, List.find?_append, find?_nextUserId_eq_none]

/-- Witness for claim C9 starting from the empty store. -/
theorem register_session_C9_witness :
    emptyDB.users.find? (fun u => u.email == "b@x.com") = none ∧
    ((register emptyDB none "b@x.com" "pw" "B").snd.fst = some (nextUserId emptyDB.users) ∧
      (register emptyDB none "b@x.com" "pw" "B").snd.fst ≠ (none : Identity) ∧
      load_user (register emptyDB none "b@x.com" "pw" "B").fst (nextUserId emptyDB.users) =
        some { id := nextUserId emptyDB.users, email := "b@x.com",
               password := generate_password_hash "pw", name := "B" } ∧
      (register emptyDB none "b@x.com" "pw" "B").snd.snd
        = RegisterResult.success (nextUserId emptyDB.users)) :=
  ⟨by decide, register_session_C9 emptyDB none "b@x.com" "pw" "B" (by decide)⟩

/-- Claim C6: editing an existing post (the row at index `i`) with submitted
fields replaces exactly title, subtitle, body and image and reassigns the
author to the caller, keeping id and date; every post with a different id is
untouched, and the users and comments tables and the number of posts are
unchanged. -/
theorem edit_post_C6 (db : DB) (caller pid : Nat) (t st bo im : String)
    (i : Nat) (p : BlogPost) (hp : db.posts[i]? = some p) :
    (edit_post db caller pid t st bo im).users = db.users ∧
    (edit_post db caller pid t st bo im).comments = db.comments ∧
    (edit_post db caller pid t st bo im).posts.length = db.posts.length ∧
    (p.id ≠ pid → (edit_post db caller pid t st bo im).posts[i]? = some p) ∧
    (p.id = pid → (edit_post db caller pid t st bo im).posts[i]? =
        some { id := p.id, author_id := caller, title := t, subtitle := st,
               date := p.date, body := bo, img_url := im }) := by
  refine ⟨rfl, rfl, by simp [edit_post], ?_, ?_⟩
  · intro hne
    simp [edit_post, List.getElem?_map, hp, hne]
  · intro heq
    subst heq
    simp [edit_post, List.getElem?_map, hp, updatePost]

/-- Witness for claim C6 at a concrete store and post. -/
theorem edit_post_C6_witness :
    dbC6.posts[0]? = some { id := 1, author_id := 1, title := "P1", subtitle := "s",
                            date := "March 03, 2024", body := "b", img_url := "i" } ∧
    ((edit_post dbC6 2 1 "T" "S" "B" "I").users = dbC6.users ∧
      (edit_post dbC6 2 1 "T" "S" "B" "I").comments = dbC6.comments ∧
      (edit_post dbC6 2 1 "T" "S" "B" "I").posts.length = dbC6.posts.length ∧
      ((1 : Nat) ≠ 1 → (edit_post dbC6 2 1 "T" "S" "B" "I").posts[0]? =
          some { id := 1, author_id := 1, title := "P1", subtitle := "s",
                 date := "March 03, 2024", body := "b", img_url := "i" }) ∧
      ((1 : Nat) = 1 → (edit_post dbC6 2 1 "T" "S" "B" "I").posts[0]? =
          some { id := 1, author_id := 2, title := "T", subtitle := "S",
                 date := "March 03, 2024", body := "B", img_url := "I" })) :=
  ⟨by decide,
   edit_post_C6 dbC6 2 1 "T" "S" "B" "I" 0
     { id := 1, author_id := 1, title := "P1", subtitle := "s",
       date := "March 03, 2024", body := "b", img_url := "i" }
     (by decide)⟩

/-- Length of the digit string produced by the core of `Nat.repr`: one digit
per application of `Nat.log`, plus whatever was already accumulated. -/
theorem toDigitsCore_len_eq (b : Nat) (h2 : 2 ≤ b) :
    ∀ (f n : Nat) (ds : List Char), n < f →
      (Nat.toDigitsCore b f n ds).length = Nat.log b n + 1 + ds.length := by
  intro f
  induction f with
  | zero => intro n ds h; exact absurd h (Nat.not_lt_zero n)
  | succ f ih =>
    intro n ds h
    simp only [Nat.toDigitsCore]
    by_cases hdiv : n / b = 0
    · have hb : 0 < b := by omega
      have hnb : n < b := (Nat.div_eq_zero_iff hb).mp hdiv
      have hlog : Nat.log b n = 0 := Nat.log_eq_zero_iff.mpr (Or.inl hnb)
      simp [hdiv, hlog]
      omega
    · have hb1 : 1 < b := by omega
      have hn0 : 0 < n := by
        rcases Nat.eq_zero_or_pos n with h0 | h0
        · subst h0; simp at hdiv
        · exact h0
      have hbn : b ≤ n := by
        by_contra hlt
        push_neg at hlt
        exact hdiv (Nat.div_eq_of_lt hlt)
      have hstep : n / b < f := by
        have h1 : n / b < n := Nat.div_lt_self hn0 hb1
        omega
      rw [if_neg hdiv, ih (n / b) _ hstep]
      have hlogpos : 0 < Nat.log b n := Nat.log_pos hb1 hbn
      have hlogdiv : Nat.log b (n / b) = Nat.log b n - 1 := Nat.log_div_base b n
      simp only [hlogdiv, List.length_cons]
      omega

/-- The decimal representation of `n` has `Nat.log 10 n + 1` characters. -/
theorem repr_length_eq (n : Nat) : (Nat.repr n).length = Nat.log 10 n + 1 := by
  have h := toDigitsCore_len_eq 10 (by omega) (n + 1) n [] (Nat.lt_succ_self n)
  simpa [Nat.repr, Nat.toDigits, String.length, List.asString] using h

/-- The zero-padded day directive always yields two characters for day values
below 100. -/
theorem pad2_length (n : Nat) (h : n < 100) : (pad2 n).length = 2 := by
  unfold pad2
  by_cases h10 : n < 10
  · rw [if_pos h10, String.length_append, repr_length_eq]
    have hlog : Nat.log 10 n = 0 := Nat.log_eq_zero_iff.mpr (Or.inl h10)
    rw [hlog]
    decide
  · rw [if_neg h10, repr_length_eq]
    have e1 : (10 : Nat) ^ 1 = 10 := by norm_num
    have e2 : (10 : Nat) ^ 2 = 100 := by norm_num
    have hlog : Nat.log 10 n = 1 :=
      Nat.log_eq_of_pow_le_of_lt_pow (by omega) (by omega)
    omega

/-- The decimal representation of a year between 1000 and 9999 has four
characters. -/
theorem repr_length_four (y : Nat) (h1 : 1000 ≤ y) (h2 : y < 10000) :
    (Nat.repr y).length = 4 := by
  rw [repr_length_eq]
  have e3 : (10 : Nat) ^ 3 = 1000 := by norm_num
  have e4 : (10 : Nat) ^ 4 = 10000 := by norm_num
  have hlog : Nat.log 10 y = 3 :=
    Nat.log_eq_of_pow_le_of_lt_pow (by omega) (by omega)
  omega

/-- Editing never touches the date column of any post. -/
theorem map_date_edit (posts : List BlogPost) (caller pid : Nat) (t st bo im : String) :
    (posts.map (fun p => if p.id == pid then updatePost caller t st bo im p else p)).map
        BlogPost.date = posts.map BlogPost.date := by
  induction posts with
  | nil => rfl
  | cons p ps ih =>
    simp only [List.map_cons, ih, List.cons.injEq, and_true]
    by_cases hpe : p.id == pid
    · simp [hpe, updatePost]
    · simp [hpe]

/-- Claim C5: the post created by add_new_post carries as its date the current
calendar date rendered as full month name, two-digit day, comma and (for the
years 1000 to 9999) four-digit year, and editing any post in any store leaves
every date column unchanged, so the date is set exactly once, at creation. -/
theorem post_date_C5 (db : DB) (caller : Nat) (today : Date) (t st bo im : String)
    (hday : today.day < 100) (hy1 : 1000 ≤ today.year) (hy2 : today.year < 10000) :
    ((add_new_post db caller today t st bo im).posts.getLast?.map BlogPost.date) =
      some (monthName today.month ++ " " ++ pad2 today.day ++ ", " ++ Nat.repr today.year) ∧
    (pad2 today.day).length = 2 ∧
    (Nat.repr today.year).length = 4 ∧
    ∀ (dbx : DB) (c2 pid : Nat) (t2 s2 b2 i2 : String),
      (edit_post dbx c2 pid t2 s2 b2 i2).posts.map BlogPost.date =
        dbx.posts.map BlogPost.date := by
  refine ⟨?_, pad2_length today.day hday, repr_length_four today.year hy1 hy2, ?_⟩
  · simp [add_new_post, List.getLast?_concat, strftime_BdY]
  · intro dbx c2 pid t2 s2 b2 i2
    exact map_date_edit dbx.posts c2 pid t2 s2 b2 i2

/-- Witness for claim C5 at a concrete store and date. -/
theorem post_date_C5_witness :
    (dateC5.day < 100 ∧ 1000 ≤ dateC5.year ∧ dateC5.year < 10000) ∧
    (((add_new_post dbC5 1 dateC5 "T" "S" "B" "I").posts.getLast?.map BlogPost.date) =
        some (monthName dateC5.month ++ " " ++ pad2 dateC5.day ++ ", " ++
              Nat.repr dateC5.year) ∧
      (pad2 dateC5.day).length = 2 ∧
      (Nat.repr dateC5.year).length = 4 ∧
      ∀ (dbx : DB) (c2 pid : Nat) (t2 s2 b2 i2 : String),
        (edit_post dbx c2 pid t2 s2 b2 i2).posts.map BlogPost.date =
          dbx.posts.map BlogPost.date) :=
  ⟨⟨by decide, by decide, by decide⟩,
   post_date_C5 dbC5 1 dateC5 "T" "S" "B" "I" (by decide) (by decide) (by decide)⟩

/-- Writing a binding into the dictionary makes that binding a member. -/
theorem mem_dictInsert_self (k : String) (v : Nat × String × String)
    (m : List (String × Nat × String × String)) : (k, v) ∈ dictInsert k v m := by
  induction m with
  | nil => exact List.mem_singleton.mpr rfl
  | cons hd tl ih =>
    obtain ⟨k3, v3⟩ := hd
    unfold dictInsert
    by_cases hk : (k3 == k) = true
    · rw [if_pos hk]
      exact List.mem_cons_self _ _
    · rw [if_neg hk]
      exact List.mem_cons_of_mem _ ih

/-- Writing a binding with a different key preserves existing bindings. -/
theorem mem_dictInsert_of_ne (k : String) (v : Nat × String × String)
    (k2 : String) (v2 : Nat × String × String)
    (m : List (String × Nat × String × String))
    (hne : k2 ≠ k) (hm : (k2, v2) ∈ m) : (k2, v2) ∈ dictInsert k v m := by
  induction m with
  | nil => cases hm
  | cons hd tl ih =>
    obtain ⟨k3, v3⟩ := hd
    unfold dictInsert
    by_cases hk : (k3 == k) = true
    · rw [if_pos hk]
      rcases List.mem_cons.mp hm with he | ht
      · exfalso
        have hk2 : k2 = k3 := (Prod.mk.injEq _ _ _ _ ▸ he).1
        exact hne (hk2.trans (by simpa using hk))
      · exact List.mem_cons_of_mem _ ht
    · rw [if_neg hk]
      rcases List.mem_cons.mp hm with he | ht
      · exact he ▸ List.mem_cons_self _ _
      · exact List.mem_cons_of_mem _ (ih ht)

/-- Folding further users whose names all differ from `k2` preserves the
binding at `k2`. -/
theorem mem_foldl_dictInsert_of_forall_ne (us : List User) (k2 : String)
    (v2 : Nat × String × String) :
    ∀ m, (∀ u ∈ us, u.name ≠ k2) → (k2, v2) ∈ m →
      (k2, v2) ∈ us.foldl (fun m u => dictInsert u.name (u.id, u.name, u.email) m) m := by
  induction us with
  | nil => intro m _ hm; exact hm
  | cons u us ih =>
    intro m hne hm
    simp only [List.foldl_cons]
    apply ih
    · intro x hx
      exact hne x (List.mem_cons_of_mem u hx)
    · exact mem_dictInsert_of_ne u.name (u.id, u.name, u.email) k2 v2 m
        (Ne.symm (hne u (List.mem_cons_self u us))) hm

/-- When the user names are pairwise distinct, folding the whole store yields
a binding for every user. -/
theorem mem_get_all_users_aux (us : List User) (u : User) :
    ∀ m, u ∈ us → (us.map User.name).Nodup →
      (u.name, u.id, u.name, u.email) ∈
        us.foldl (fun m x => dictInsert x.name (x.id, x.name, x.email) m) m := by
  induction us with
  | nil => intro m hm _; cases hm
  | cons x xs ih =>
    intro m hm hnd
    rw [List.map_cons, List.nodup_cons] at hnd
    simp only [List.foldl_cons]
    rcases List.mem_cons.mp hm with he | ht
    · subst he
      apply mem_foldl_dictInsert_of_forall_ne
      · intro y hy heq
        exact hnd.1 (heq ▸ List.mem_map_of_mem User.name hy)
      · exact mem_dictInsert_self _ _ _
    · exact ih _ ht hnd.2

/-- Claim C8, counterexample: with two users sharing the display name "A"
(ids 1 and 2, different emails) the dictionary built by get_all_users holds a
single entry under the key "A" — the second user overwrote the first — so it
does not contain an entry for every user in the store. -/
theorem get_all_users_C8_counterexample :
    ¬ ∀ u ∈ usersC8, (u.name, u.id, u.name, u.email) ∈ get_all_users usersC8 := by
  decide

/-- Claim C8, amended: the /all-users response is computed from the store
alone, identically for every caller identity (no authorization check), and
whenever the user names in the store are pairwise distinct the JSON dictionary
contains the entry name to (id, name, email) for every user; with duplicate
names, later users overwrite earlier ones under the shared key. -/
theorem get_all_users_C8 (db : DB) (s1 s2 : Identity) (u : User)
    (hu : u ∈ db.users) (hnd : (db.users.map User.name).Nodup) :
    get_all_users_route db s1 = get_all_users_route db s2 ∧
    (u.name, u.id, u.name, u.email) ∈ get_all_users db.users :=
  ⟨rfl, mem_get_all_users_aux db.users u [] hu hnd⟩

/-- Witness for claim C8 at a concrete store with distinct names. -/
theorem get_all_users_C8_witness :
    (({ id := 1, email := "a@x.com", password := "h1", name := "A" } : User) ∈ dbC8.users ∧
      (dbC8.users.map User.name).Nodup) ∧
    (get_all_users_route dbC8 (some 1) = get_all_users_route dbC8 none ∧
      ("A", 1, "A", "a@x.com") ∈ get_all_users dbC8.users) :=
  ⟨⟨by decide, by decide⟩,
   get_all_users_C8 dbC8 (some 1) none
     { id := 1, email := "a@x.com", password := "h1", name := "A" }
     (by decide) (by decide)⟩

end MyBlog
